import Mathlib

/-!
Shallow embedding of the health-scoring engine of
`backend/app/health_scoring.py` (with the data model of
`backend/app/models.py`).

Python floats are modelled as `ℚ` (every arithmetic operation the engine
performs — sums, products, divisions, min/max — is exact rational
arithmetic), Python ints as `ℕ`, dates and datetimes as integer day
numbers (`ℤ`), and `None`-able fields as `Option`.  The current date
(`date.today()` / `datetime.utcnow()`) is passed explicitly as a `today`
parameter.  The SQLModel session is modelled as the list of snapshots it
holds, and the persistence layer (`session.commit()`) as an
`Except String Unit` outcome supplied by the caller, since the Python
code propagates any exception it raises.
-/

namespace AISuccess

/-- `models.HealthBucketEnum`: the three health buckets. -/
inductive HealthBucketEnum where
  | GREEN
  | AMBER
  | RED
deriving DecidableEq, Repr

/-- `models.Account`: the fields of the account record that the scoring
engine reads, plus the derived health fields it writes.  Dates
(`renewal_date`, `qbr_last_date`) and the `created_at` timestamp are day
numbers. -/
structure Account where
  id : ℕ
  name : String
  arr : ℚ
  renewal_date : Option ℤ
  active_users : ℕ
  seats_purchased : ℕ
  feature_x_adoption : ℚ
  weekly_active_pct : ℚ
  time_to_value_days : Option ℕ
  tickets_last_30d : ℕ
  critical_tickets_90d : ℕ
  sla_breaches_90d : ℕ
  nps : Option ℚ
  qbr_last_date : Option ℤ
  onboarding_phase : Bool
  expansion_oppty_dollar : ℚ
  health_score : ℚ
  health_bucket : Option HealthBucketEnum
  created_at : ℤ
deriving DecidableEq, Repr

/-- The validation constraints declared on `models.Account` fields
(`ge`/`le` bounds; `ℕ`-typed fields carry their nonnegativity
intrinsically). -/
def Account.Valid (a : Account) : Prop :=
  0 ≤ a.arr ∧ 1 ≤ a.seats_purchased ∧
  0 ≤ a.feature_x_adoption ∧ a.feature_x_adoption ≤ 1 ∧
  0 ≤ a.weekly_active_pct ∧ a.weekly_active_pct ≤ 1 ∧
  (∀ n, a.nps = some n → -100 ≤ n ∧ n ≤ 100) ∧
  0 ≤ a.expansion_oppty_dollar

/-- Python `round(x, 1)` (to one decimal place; ties rounded to the
nearest representable, modelled with `round`). -/
def round1 (x : ℚ) : ℚ := ((round (x * 10) : ℤ) : ℚ) / 10

/-- `health_scoring.HealthFactor`: a named factor with its impact,
rounded to one decimal in the constructor. -/
structure HealthFactor where
  factor : String
  impact : ℚ
deriving DecidableEq, Repr

/-- `HealthFactor.__init__`, which stores `round(impact, 1)`. -/
def mkFactor (factor : String) (impact : ℚ) : HealthFactor :=
  ⟨factor, round1 impact⟩

/-- `health_scoring.normalize`: scale `value` into `[0,1]` between
`min_val` and `max_val`, returning `0.5` when the bounds coincide,
clamping outside the bounds, and flipping the result when `inverse`. -/
def normalize (value min_val max_val : ℚ) (inverse : Bool) : ℚ :=
  if max_val = min_val then 1/2
  else
    let normalized := (value - min_val) / (max_val - min_val)
    let normalized := max 0 (min 1 normalized)
    if inverse then 1 - normalized else normalized

/-- `adoption_ratio` (health_scoring.py lines 62-63):
`active_users / max(1, seats_purchased)`, capped at 1.2. -/
def adoption_ratio (a : Account) : ℚ :=
  min (6/5) ((a.active_users : ℚ) / ((max 1 a.seats_purchased : ℕ) : ℚ))

/-- `adoption_ratio_score` (lines 64-65): the capped ratio normalized by
1.2 and weighted by 20 points. -/
def adoption_ratio_score (a : Account) : ℚ :=
  min 1 (adoption_ratio a / (6/5)) * 20

/-- `feature_x_score` (line 76). -/
def feature_x_score (a : Account) : ℚ := a.feature_x_adoption * 10

/-- `weekly_active_score` (line 85). -/
def weekly_active_score (a : Account) : ℚ := a.weekly_active_pct * 5

/-- `avg_session_score` (lines 99-103): placeholder using
`active_users * 0.5` normalized over `[0, 100]`. -/
def avg_session_score (a : Account) : ℚ :=
  normalize ((a.active_users : ℚ) * (1/2)) 0 100 false * 10

/-- `ttv_score` contribution (lines 107-122): inverse-normalized time to
value over `[0, 180]`, or a neutral 5 points when the field is absent. -/
def ttv_score (a : Account) : ℚ :=
  match a.time_to_value_days with
  | some t => normalize (t : ℚ) 0 180 true * 10
  | none => 5

/-- `tickets_score` (lines 129-133): inverse-normalized over `[0, 20]`,
weighted 8. -/
def tickets_score (a : Account) : ℚ :=
  normalize (a.tickets_last_30d : ℚ) 0 20 true * 8

/-- `critical_score` (lines 142-146): inverse-normalized over `[0, 10]`,
weighted 8. -/
def critical_score (a : Account) : ℚ :=
  normalize (a.critical_tickets_90d : ℚ) 0 10 true * 8

/-- `sla_score` (lines 153-157): inverse-normalized over `[0, 5]`,
weighted 4. -/
def sla_score (a : Account) : ℚ :=
  normalize (a.sla_breaches_90d : ℚ) 0 5 true * 4

/-- `nps_score` contribution (lines 168-180): NPS mapped from
`[-100, 100]` to `[0, 1]` and weighted 15, or a neutral 7.5 when
absent. -/
def nps_score (a : Account) : ℚ :=
  match a.nps with
  | some n => (n + 100) / 200 * 15
  | none => 15/2

/-- `qbr_score` contribution (lines 187-201): days since last QBR
inverse-normalized over `[0, 180]` and weighted 5, or 0 when there is no
QBR history. -/
def qbr_score (today : ℤ) (a : Account) : ℚ :=
  match a.qbr_last_date with
  | some d => normalize ((today - d : ℤ) : ℚ) 0 180 true * 5
  | none => 0

/-- `onboarding_score` (lines 205-219): 0 when onboarding longer than 30
days, 3 during normal onboarding, 5 when not onboarding. -/
def onboarding_score (today : ℤ) (a : Account) : ℚ :=
  if a.onboarding_phase then
    if 30 < today - a.created_at then 0 else 3
  else 5

/-- `base_score`: the running sum accumulated through lines 54-219. -/
def base_score (today : ℤ) (a : Account) : ℚ :=
  adoption_ratio_score a + feature_x_score a + weekly_active_score a +
  avg_session_score a + ttv_score a + tickets_score a + critical_score a +
  sla_score a + nps_score a + qbr_score today a + onboarding_score today a

/-- `expansion_bonus` (lines 228-232): when there is an expansion
opportunity and positive ARR, `min(10, expansion/arr * 20)`. -/
def expansion_bonus (a : Account) : ℚ :=
  if 0 < a.expansion_oppty_dollar ∧ 0 < a.arr then
    min 10 (a.expansion_oppty_dollar / a.arr * 20)
  else 0

/-- `renewal_penalty` (lines 238-246): a flat −5 when the renewal date
is within the next 60 days (inclusive of today) and the adoption ratio
is below 0.5. -/
def renewal_penalty (today : ℤ) (a : Account) : ℚ :=
  match a.renewal_date with
  | some r =>
    if 0 ≤ r - today ∧ r - today ≤ 60 ∧ adoption_ratio a < 1/2 then -5 else 0
  | none => 0

/-- `commercial_bonus` (lines 225-246): the two commercial terms summed. -/
def commercial_bonus (today : ℤ) (a : Account) : ℚ :=
  expansion_bonus a + renewal_penalty today a

/-- `final_score` (lines 252-253): base plus commercial, clamped to
`[0, 110]`. -/
def final_score (today : ℤ) (a : Account) : ℚ :=
  max 0 (min 110 (base_score today a + commercial_bonus today a))

/-- `risk_label` (lines 256-261). -/
def risk_label (today : ℤ) (a : Account) : HealthBucketEnum :=
  if 75 ≤ final_score today a then .GREEN
  else if 50 ≤ final_score today a then .AMBER
  else .RED

/-- Factors appended for the adoption ratio (lines 68-73): exactly one
of the three adoption factors, chosen by the capped ratio. -/
def adoptionFactors (a : Account) : List HealthFactor :=
  if 9/10 ≤ adoption_ratio a then
    [mkFactor "Strong user adoption" (adoption_ratio_score a)]
  else if adoption_ratio a < 3/10 then
    [mkFactor "Low user adoption" (adoption_ratio_score a - 20)]
  else
    [mkFactor "Moderate user adoption" (adoption_ratio_score a - 10)]

/-- Factors appended for feature-X adoption (lines 79-82). -/
def featureFactors (a : Account) : List HealthFactor :=
  if 7/10 ≤ a.feature_x_adoption then
    [mkFactor "High feature adoption" (feature_x_score a)]
  else if a.feature_x_adoption < 3/10 then
    [mkFactor "Low feature adoption" (feature_x_score a - 10)]
  else []

/-- Factor appended for weekly activity (lines 88-89). -/
def weeklyFactors (a : Account) : List HealthFactor :=
  if a.weekly_active_pct < 3/10 then
    [mkFactor "Low weekly engagement" (weekly_active_score a - 5)]
  else []

/-- Factors appended for time to value (lines 116-119). -/
def ttvFactors (a : Account) : List HealthFactor :=
  match a.time_to_value_days with
  | some t =>
    if t ≤ 30 then [mkFactor "Fast time to value" (ttv_score a)]
    else if 90 < t then [mkFactor "Slow time to value" (ttv_score a - 10)]
    else []
  | none => []

/-- Factors appended for 30-day ticket volume (lines 136-139). -/
def ticketFactors (a : Account) : List HealthFactor :=
  if 10 < a.tickets_last_30d then
    [mkFactor "High ticket volume" (tickets_score a - 8)]
  else if a.tickets_last_30d = 0 then
    [mkFactor "Zero support tickets" (tickets_score a)]
  else []

/-- Factor appended for 90-day critical tickets (lines 149-150). -/
def criticalFactors (a : Account) : List HealthFactor :=
  if 3 < a.critical_tickets_90d then
    [mkFactor "Multiple critical issues" (critical_score a - 8)]
  else []

/-- Factor appended for SLA breaches (lines 160-161). -/
def slaFactors (a : Account) : List HealthFactor :=
  if 2 < a.sla_breaches_90d then
    [mkFactor "SLA breaches" (sla_score a - 4)]
  else []

/-- Factors appended for NPS (lines 174-177); nothing when NPS is
absent. -/
def npsFactors (a : Account) : List HealthFactor :=
  match a.nps with
  | some n =>
    if 50 ≤ n then [mkFactor "Promoter NPS" (nps_score a)]
    else if n < 0 then [mkFactor "Detractor NPS" (nps_score a - 15)]
    else []
  | none => []

/-- Factors appended for QBR recency (lines 196-202): an overdue-QBR
factor, or the no-history factor with impact −5 when the date is
absent. -/
def qbrFactors (today : ℤ) (a : Account) : List HealthFactor :=
  match a.qbr_last_date with
  | some d =>
    if 120 < today - d then [mkFactor "Overdue QBR" (qbr_score today a - 5)]
    else []
  | none => [mkFactor "No QBR history" (-5)]

/-- Factor appended for extended onboarding (lines 207-211). -/
def onboardingFactors (today : ℤ) (a : Account) : List HealthFactor :=
  if a.onboarding_phase ∧ 30 < today - a.created_at then
    [mkFactor "Extended onboarding" (-5)]
  else []

/-- Factor appended for the expansion bonus (lines 234-235). -/
def expansionFactors (a : Account) : List HealthFactor :=
  if 0 < a.expansion_oppty_dollar ∧ 0 < a.arr then
    if 5 ≤ min 10 (a.expansion_oppty_dollar / a.arr * 20) then
      [mkFactor "Strong expansion opportunity"
        (min 10 (a.expansion_oppty_dollar / a.arr * 20))]
    else []
  else []

/-- Factor appended for renewal risk (lines 238-246). -/
def renewalFactors (today : ℤ) (a : Account) : List HealthFactor :=
  match a.renewal_date with
  | some r =>
    if 0 ≤ r - today ∧ r - today ≤ 60 ∧ adoption_ratio a < 1/2 then
      [mkFactor "Renewal risk: low adoption" (-5)]
    else []
  | none => []

/-- The full `factors` list in emission order (lines 54-246). -/
def factors (today : ℤ) (a : Account) : List HealthFactor :=
  adoptionFactors a ++ featureFactors a ++ weeklyFactors a ++ ttvFactors a ++
  ticketFactors a ++ criticalFactors a ++ slaFactors a ++ npsFactors a ++
  qbrFactors today a ++ onboardingFactors today a ++ expansionFactors a ++
  renewalFactors today a

/-- The sort relation of line 264: descending absolute impact (`f` may
come before `g` when `|g.impact| ≤ |f.impact|`). -/
def impactGE (f g : HealthFactor) : Prop := |g.impact| ≤ |f.impact|

instance : DecidableRel impactGE := fun f g =>
  inferInstanceAs (Decidable (|g.impact| ≤ |f.impact|))

instance : IsTotal HealthFactor impactGE :=
  ⟨fun f g => (le_total |g.impact| |f.impact|).imp id id⟩

instance : IsTrans HealthFactor impactGE :=
  ⟨fun _ _ _ h h' => le_trans h' h⟩

/-- `top_factors` (lines 264-267): the factors stably sorted by
descending absolute impact, truncated to the first ten. -/
def top_factors (today : ℤ) (a : Account) : List HealthFactor :=
  (List.insertionSort impactGE (factors today a)).take 10

/-- `health_scoring.calculate_health_score`: the `(score, top_factors,
risk_label)` triple of lines 39-269. -/
def calculate_health_score (today : ℤ) (a : Account) :
    ℚ × List HealthFactor × HealthBucketEnum :=
  (final_score today a, top_factors today a, risk_label today a)

/-- `models.HealthSnapshot`: one immutable snapshot row.  `top_factors`
holds the factor list itself rather than its JSON serialization. -/
structure HealthSnapshot where
  account_id : ℕ
  calculated_at : ℤ
  score : ℚ
  risk_label : HealthBucketEnum
  top_factors : List HealthFactor
deriving DecidableEq, Repr

/-- `health_scoring.save_health_snapshot`: compute the score, update the
account's live fields, append one snapshot, and commit.  The session is
the list of snapshots already persisted; `commit` is the outcome of
`session.commit()`, whose exception (if any) propagates to the
caller. -/
def save_health_snapshot (commit : Except String Unit) (today : ℤ)
    (snapshots : List HealthSnapshot) (a : Account) :
    Except String (List HealthSnapshot × Account) :=
  let r := calculate_health_score today a
  let a' := { a with health_score := r.1, health_bucket := some r.2.2 }
  let snapshot : HealthSnapshot :=
    ⟨a.id, today, r.1, r.2.2, r.2.1⟩
  match commit with
  | .error e => .error e
  | .ok _ => .ok (snapshots ++ [snapshot], a')

/-- The loop body of `recompute_all_health_scores` (lines 308-310):
`save_health_snapshot` on each account in turn, incrementing the count;
an exception raised for one account propagates and aborts the loop. -/
def recomputeGo (commit : ℕ → Except String Unit) (today : ℤ) :
    List Account → List HealthSnapshot → ℕ →
    Except String (List HealthSnapshot × ℕ)
  | [], snapshots, count => .ok (snapshots, count)
  | a :: rest, snapshots, count =>
    match save_health_snapshot (commit a.id) today snapshots a with
    | .error e => .error e
    | .ok (snapshots', _) => recomputeGo commit today rest snapshots' (count + 1)

/-- `health_scoring.recompute_all_health_scores` (lines 299-312):
iterate over all accounts, saving a snapshot for each and counting;
returns the count (alongside the updated session). -/
def recompute_all_health_scores (commit : ℕ → Except String Unit)
    (today : ℤ) (snapshots : List HealthSnapshot) (accounts : List Account) :
    Except String (List HealthSnapshot × ℕ) :=
  recomputeGo commit today accounts snapshots 0

/-- A baseline account with every optional field absent and all numeric
inputs at their model defaults. -/
def accA : Account :=
  { id := 1, name := "Acme", arr := 0, renewal_date := none,
    active_users := 0, seats_purchased := 1, feature_x_adoption := 0,
    weekly_active_pct := 0, time_to_value_days := none,
    tickets_last_30d := 0, critical_tickets_90d := 0, sla_breaches_90d := 0,
    nps := none, qbr_last_date := none, onboarding_phase := false,
    expansion_oppty_dollar := 0, health_score := 0, health_bucket := none,
    created_at := 0 }

/-- The baseline account with ten purchased seats. -/
def accS : Account := { accA with seats_purchased := 10 }

/-- A persistence layer whose commit fails exactly for account id 2. -/
def commitFailsOn2 : ℕ → Except String Unit :=
  fun i => if i = 2 then .error "db error" else .ok ()

section Lemmas

open AISuccess

lemma normalize_false_def (v mn mx : ℚ) :
    normalize v mn mx false =
      if mx = mn then 1/2 else max 0 (min 1 ((v - mn) / (mx - mn))) := by
  unfold normalize
  simp

lemma normalize_true_def (v mn mx : ℚ) :
    normalize v mn mx true =
      if mx = mn then 1/2 else 1 - max 0 (min 1 ((v - mn) / (mx - mn))) := by
  unfold normalize
  simp

lemma clamp01_mem (q : ℚ) : 0 ≤ max 0 (min 1 q) ∧ max 0 (min 1 q) ≤ 1 :=
  ⟨le_max_left _ _, max_le (by norm_num) (min_le_left _ _)⟩

lemma normalize_mem_Icc (v mn mx : ℚ) (inv : Bool) :
    0 ≤ normalize v mn mx inv ∧ normalize v mn mx inv ≤ 1 := by
  obtain ⟨h0, h1⟩ := clamp01_mem ((v - mn) / (mx - mn))
  cases inv with
  | false =>
    rw [normalize_false_def]
    split_ifs with h
    · norm_num
    · exact ⟨h0, h1⟩
  | true =>
    rw [normalize_true_def]
    split_ifs with h
    · norm_num
    · constructor <;> linarith

lemma normalize_false_mono (mn mx v1 v2 : ℚ) (hlt : mn < mx) (hv : v1 ≤ v2) :
    normalize v1 mn mx false ≤ normalize v2 mn mx false := by
  rw [normalize_false_def, normalize_false_def,
    if_neg (ne_of_gt hlt), if_neg (ne_of_gt hlt)]
  have hd : (0:ℚ) < mx - mn := sub_pos.2 hlt
  have hdiv : (v1 - mn) / (mx - mn) ≤ (v2 - mn) / (mx - mn) := by
    gcongr
  exact max_le_max le_rfl (min_le_min le_rfl hdiv)

lemma normalize_inverse_eq (v mn mx : ℚ) :
    normalize v mn mx true = 1 - normalize v mn mx false := by
  rw [normalize_true_def, normalize_false_def]
  split_ifs with h <;> norm_num

set_option maxHeartbeats 1000000 in
lemma save_health_snapshot_ok (today : ℤ) (snapshots : List HealthSnapshot)
    (a : Account) :
    save_health_snapshot (.ok ()) today snapshots a =
      .ok (snapshots ++
          [⟨a.id, today, final_score today a, risk_label today a,
            top_factors today a⟩],
        { a with health_score := final_score today a,
                 health_bucket := some (risk_label today a) }) := rfl

lemma countP_factor_zero (q : String → Bool) (l : List HealthFactor)
    (names : List String) (hl : ∀ x ∈ l, x.factor ∈ names)
    (hq : ∀ s ∈ names, q s = false) :
    l.countP (fun f => q f.factor) = 0 := by
  rw [List.countP_eq_zero]
  intro x hx
  simp [hq x.factor (hl x hx)]

lemma mem_adoptionFactors (a : Account) :
    ∀ x ∈ adoptionFactors a, x.factor ∈
      ["Strong user adoption", "Low user adoption", "Moderate user adoption"] := by
  unfold adoptionFactors
  split_ifs <;> simp [mkFactor]

lemma mem_featureFactors (a : Account) :
    ∀ x ∈ featureFactors a, x.factor ∈
      ["High feature adoption", "Low feature adoption"] := by
  unfold featureFactors
  split_ifs <;> simp [mkFactor]

lemma mem_weeklyFactors (a : Account) :
    ∀ x ∈ weeklyFactors a, x.factor ∈ ["Low weekly engagement"] := by
  unfold weeklyFactors
  split_ifs <;> simp [mkFactor]

lemma mem_ttvFactors (a : Account) :
    ∀ x ∈ ttvFactors a, x.factor ∈
      ["Fast time to value", "Slow time to value"] := by
  unfold ttvFactors
  cases htv : a.time_to_value_days with
  | none => simp
  | some t =>
    dsimp only
    split_ifs <;> simp [mkFactor]

lemma mem_ticketFactors (a : Account) :
    ∀ x ∈ ticketFactors a, x.factor ∈
      ["High ticket volume", "Zero support tickets"] := by
  unfold ticketFactors
  split_ifs <;> simp [mkFactor]

lemma mem_criticalFactors (a : Account) :
    ∀ x ∈ criticalFactors a, x.factor ∈ ["Multiple critical issues"] := by
  unfold criticalFactors
  split_ifs <;> simp [mkFactor]

lemma mem_slaFactors (a : Account) :
    ∀ x ∈ slaFactors a, x.factor ∈ ["SLA breaches"] := by
  unfold slaFactors
  split_ifs <;> simp [mkFactor]

lemma mem_npsFactors (a : Account) :
    ∀ x ∈ npsFactors a, x.factor ∈ ["Promoter NPS", "Detractor NPS"] := by
  unfold npsFactors
  cases hn : a.nps with
  | none => simp
  | some n =>
    dsimp only
    split_ifs <;> simp [mkFactor]

lemma mem_qbrFactors (today : ℤ) (a : Account) :
    ∀ x ∈ qbrFactors today a, x.factor ∈ ["Overdue QBR", "No QBR history"] := by
  unfold qbrFactors
  cases hq : a.qbr_last_date with
  | none => simp [mkFactor]
  | some d =>
    dsimp only
    split_ifs <;> simp [mkFactor]

lemma mem_onboardingFactors (today : ℤ) (a : Account) :
    ∀ x ∈ onboardingFactors today a, x.factor ∈ ["Extended onboarding"] := by
  unfold onboardingFactors
  split_ifs <;> simp [mkFactor]

lemma mem_expansionFactors (a : Account) :
    ∀ x ∈ expansionFactors a, x.factor ∈ ["Strong expansion opportunity"] := by
  unfold expansionFactors
  split_ifs <;> simp [mkFactor]

lemma mem_renewalFactors (today : ℤ) (a : Account) :
    ∀ x ∈ renewalFactors today a, x.factor ∈ ["Renewal risk: low adoption"] := by
  unfold renewalFactors
  cases hr : a.renewal_date with
  | none => simp
  | some r =>
    dsimp only
    split_ifs <;> simp [mkFactor]

lemma adoptionFactors_length (a : Account) : (adoptionFactors a).length = 1 := by
  unfold adoptionFactors
  split_ifs <;> rfl

lemma round1_neg_five : round1 (-5) = -5 := by
  unfold round1
  rw [show ((-5 : ℚ) * 10) = ((-50 : ℤ) : ℚ) by norm_num, round_intCast]
  norm_num

lemma round1_pos_of_five_le (x : ℚ) (h : 5 ≤ x) : 0 < round1 x := by
  unfold round1
  have h50 : (50 : ℤ) ≤ round (x * 10) := by
    rw [round_eq]
    exact Int.le_floor.mpr (by push_cast; linarith)
  have hc : (50 : ℚ) ≤ ((round (x * 10) : ℤ) : ℚ) := by exact_mod_cast h50
  linarith

lemma final_score_mem (today : ℤ) (a : Account) :
    0 ≤ final_score today a ∧ final_score today a ≤ 110 := by
  unfold final_score
  exact ⟨le_max_left _ _, max_le (by norm_num) (min_le_left _ _)⟩

end Lemmas

/-- C4: `normalize` always returns a value in `[0,1]`; when the bounds
coincide it returns `0.5` for any value; when `min_val < max_val`, a
value at or below the lower bound maps to the boundary result (0, or 1
under `inverse`) and a value at or above the upper bound maps to the
other boundary (1, or 0 under `inverse`), with no extrapolation; and the
`inverse` result always equals one minus the non-inverse result. -/
theorem normalize_range_clamp_inverse (v mn mx : ℚ) (inv : Bool) :
    (0 ≤ normalize v mn mx inv ∧ normalize v mn mx inv ≤ 1) ∧
    (mx = mn → normalize v mn mx inv = 1/2) ∧
    (mn < mx → v ≤ mn → normalize v mn mx inv = if inv then 1 else 0) ∧
    (mn < mx → mx ≤ v → normalize v mn mx inv = if inv then 0 else 1) ∧
    normalize v mn mx true = 1 - normalize v mn mx false := by
  refine ⟨normalize_mem_Icc v mn mx inv, ?_, ?_, ?_, normalize_inverse_eq v mn mx⟩
  · intro h
    cases inv
    · rw [normalize_false_def, if_pos h]
    · rw [normalize_true_def, if_pos h]
  · intro hlt hv
    have hd : (0:ℚ) < mx - mn := sub_pos.2 hlt
    have hn : (v - mn) / (mx - mn) ≤ 0 :=
      div_nonpos_of_nonpos_of_nonneg (by linarith) hd.le
    have hcl : max 0 (min 1 ((v - mn) / (mx - mn))) = 0 := by
      rw [min_eq_right (hn.trans (by norm_num)), max_eq_left hn]
    cases inv
    · rw [normalize_false_def, if_neg (ne_of_gt hlt), hcl]
      simp
    · rw [normalize_true_def, if_neg (ne_of_gt hlt), hcl]
      norm_num
  · intro hlt hv
    have hd : (0:ℚ) < mx - mn := sub_pos.2 hlt
    have hn : (1:ℚ) ≤ (v - mn) / (mx - mn) := (one_le_div hd).mpr (by linarith)
    have hcl : max 0 (min 1 ((v - mn) / (mx - mn))) = 1 := by
      rw [min_eq_left hn, max_eq_right (by norm_num)]
    cases inv
    · rw [normalize_false_def, if_neg (ne_of_gt hlt), hcl]
      simp
    · rw [normalize_true_def, if_neg (ne_of_gt hlt), hcl]
      norm_num

/-- Witness for C4: at value −3, bounds 0 < 10, `inverse = true`, the
clamped inverse result is the boundary value 1. -/
theorem normalize_range_clamp_inverse_witness :
    normalize (-3) 0 10 true = if true then 1 else 0 :=
  (normalize_range_clamp_inverse (-3) 0 10 true).2.2.1 (by norm_num) (by norm_num)

/-- C5: for fixed bounds with `min_val < max_val`, `normalize` is
monotone non-decreasing in the value when `inverse` is false and
monotone non-increasing when `inverse` is true. -/
theorem normalize_monotone (mn mx v1 v2 : ℚ) (inv : Bool)
    (hlt : mn < mx) (hv : v1 ≤ v2) :
    (inv = false → normalize v1 mn mx inv ≤ normalize v2 mn mx inv) ∧
    (inv = true → normalize v2 mn mx inv ≤ normalize v1 mn mx inv) := by
  constructor
  · rintro rfl
    exact normalize_false_mono mn mx v1 v2 hlt hv
  · rintro rfl
    rw [normalize_inverse_eq, normalize_inverse_eq]
    have := normalize_false_mono mn mx v1 v2 hlt hv
    linarith

/-- Witness for C5: bounds 0 < 10 and values 2 ≤ 5, non-inverse
direction. -/
theorem normalize_monotone_witness :
    normalize 2 0 10 false ≤ normalize 5 0 10 false :=
  (normalize_monotone 0 10 2 5 false (by norm_num) (by norm_num)).1 rfl

/-- C2: for every valid account the returned score is the clamped sum
`clamp(base + commercial, 0, 110)`, hence lies in `[0, 110]`, and the
bucket is Green iff the score is at least 75, Amber iff it is in
`[50, 75)`, and Red iff it is below 50. -/
theorem calculate_health_score_range_buckets (today : ℤ) (a : Account)
    (hv : a.Valid) :
    (calculate_health_score today a).1 =
      max 0 (min 110 (base_score today a + commercial_bonus today a)) ∧
    0 ≤ (calculate_health_score today a).1 ∧
    (calculate_health_score today a).1 ≤ 110 ∧
    ((calculate_health_score today a).2.2 = .GREEN ↔
      75 ≤ (calculate_health_score today a).1) ∧
    ((calculate_health_score today a).2.2 = .AMBER ↔
      50 ≤ (calculate_health_score today a).1 ∧
        (calculate_health_score today a).1 < 75) ∧
    ((calculate_health_score today a).2.2 = .RED ↔
      (calculate_health_score today a).1 < 50) := by
  obtain ⟨h0, h110⟩ := final_score_mem today a
  dsimp only [calculate_health_score]
  refine ⟨rfl, h0, h110, ?_, ?_, ?_⟩
  · unfold risk_label
    split_ifs with hG hA
    · simpa using hG
    · simp [hG]
    · simp [hG]
  · unfold risk_label
    split_ifs with hG hA
    · constructor
      · intro h
        simp at h
      · rintro ⟨h50, h75⟩
        linarith
    · simp [hA, not_le.mp hG]
    · simp [hA]
  · unfold risk_label
    split_ifs with hG hA
    · constructor
      · intro h
        simp at h
      · intro h
        linarith
    · constructor
      · intro h
        simp at h
      · intro h
        linarith
    · simp [not_le.mp hA]

/-- Witness for C2 at the baseline valid account. -/
theorem calculate_health_score_range_buckets_witness :
    0 ≤ (calculate_health_score 0 accA).1 ∧
      (calculate_health_score 0 accA).1 ≤ 110 := by
  have hv : accA.Valid := by
    refine ⟨?_, ?_, ?_, ?_, ?_, ?_, ?_, ?_⟩ <;> simp [accA]
  exact ⟨(calculate_health_score_range_buckets 0 accA hv).2.1,
    (calculate_health_score_range_buckets 0 accA hv).2.2.1⟩

/-- C3: a successful `save_health_snapshot` appends one snapshot, and
afterwards the account's live `health_score`/`health_bucket` equal the
`score`/`risk_label` of the latest snapshot, with the score in
`[0, 110]`. -/
theorem save_health_snapshot_latest (commit : Except String Unit)
    (today : ℤ) (snapshots : List HealthSnapshot) (a : Account)
    (h : commit = .ok ()) :
    ∃ st' a' snap,
      save_health_snapshot commit today snapshots a = .ok (st', a') ∧
      st'.getLast? = some snap ∧
      a'.health_score = snap.score ∧
      a'.health_bucket = some snap.risk_label ∧
      0 ≤ a'.health_score ∧ a'.health_score ≤ 110 := by
  subst h
  obtain ⟨h0, h110⟩ := final_score_mem today a
  refine ⟨snapshots ++
      [⟨a.id, today, final_score today a, risk_label today a,
        top_factors today a⟩],
    { a with health_score := final_score today a,
             health_bucket := some (risk_label today a) },
    ⟨a.id, today, final_score today a, risk_label today a,
      top_factors today a⟩, save_health_snapshot_ok today snapshots a,
    ?_, rfl, rfl, h0, h110⟩
  simp

/-- Witness for C3: a committing save of the baseline account. -/
theorem save_health_snapshot_latest_witness :
    ∃ st' a' snap,
      save_health_snapshot (.ok ()) 0 [] accA = .ok (st', a') ∧
      st'.getLast? = some snap ∧
      a'.health_score = snap.score ∧
      a'.health_bucket = some snap.risk_label ∧
      0 ≤ a'.health_score ∧ a'.health_score ≤ 110 :=
  save_health_snapshot_latest (.ok ()) 0 [] accA rfl

/-- Counterexample for C1: with three accounts whose persistence layer
fails on the second one, `recompute_all_health_scores` does not catch
the failure, skip the account and return the success count 2 — the
exception propagates and the batch aborts with the error. -/
theorem recompute_all_aborts_on_failure :
    recompute_all_health_scores commitFailsOn2 0 []
      [{ accA with id := 1 }, { accA with id := 2 }, { accA with id := 3 }] =
      .error "db error" := rfl

lemma recomputeGo_ok (commit : ℕ → Except String Unit) (today : ℤ)
    (accounts : List Account) :
    ∀ (st : List HealthSnapshot) (c : ℕ),
      (∀ a ∈ accounts, commit a.id = .ok ()) →
      ∃ st', recomputeGo commit today accounts st c =
        .ok (st', c + accounts.length) := by
  induction accounts with
  | nil =>
    intro st c _
    exact ⟨st, rfl⟩
  | cons a rest ih =>
    intro st c h
    have hc : commit a.id = .ok () := h a (by simp)
    obtain ⟨st', hst'⟩ := ih
      (st ++ [⟨a.id, today, final_score today a, risk_label today a,
        top_factors today a⟩])
      (c + 1) (fun b hb => h b (by simp [hb]))
    refine ⟨st', ?_⟩
    have hstep : recomputeGo commit today (a :: rest) st c =
        recomputeGo commit today rest
          (st ++ [⟨a.id, today, final_score today a, risk_label today a,
            top_factors today a⟩]) (c + 1) := by
      simp only [recomputeGo, hc, save_health_snapshot_ok]
    rw [hstep, hst']
    simp [Nat.add_comm, Nat.add_assoc, Nat.add_left_comm]

/-- C1 (amended): `recompute_all_health_scores` applies the snapshot
save to every account in order with no error handling; when every
account's commit succeeds the batch completes and the returned count is
the number of all accounts processed. -/
theorem recompute_all_success_count (commit : ℕ → Except String Unit)
    (today : ℤ) (snapshots : List HealthSnapshot) (accounts : List Account)
    (h : ∀ a ∈ accounts, commit a.id = .ok ()) :
    ∃ st', recompute_all_health_scores commit today snapshots accounts =
      .ok (st', accounts.length) := by
  obtain ⟨st', hst'⟩ := recomputeGo_ok commit today accounts snapshots 0 h
  exact ⟨st', by simpa using hst'⟩

/-- Witness for the amended C1: a singleton batch whose commit
succeeds. -/
theorem recompute_all_success_count_witness :
    ∃ st', recompute_all_health_scores (fun _ => .ok ()) 0 [] [accA] =
      .ok (st', [accA].length) :=
  recompute_all_success_count (fun _ => .ok ()) 0 [] [accA] (fun _ _ => rfl)

/-- C8: raising `active_users` with seats fixed (capped ratio still
below 1.2) never lowers the adoption-ratio sub-score, and raising
`tickets_last_30d` never raises the tickets sub-score. -/
theorem adoption_tickets_monotonic (a : Account) (u1 u2 t1 t2 : ℕ)
    (hu : u1 ≤ u2) (ht : t1 ≤ t2)
    (hr : adoption_ratio { a with active_users := u2 } < 6/5) :
    adoption_ratio_score { a with active_users := u1 } ≤
      adoption_ratio_score { a with active_users := u2 } ∧
    tickets_score { a with tickets_last_30d := t2 } ≤
      tickets_score { a with tickets_last_30d := t1 } := by
  constructor
  · unfold adoption_ratio_score adoption_ratio
    dsimp only
    have hu' : (u1:ℚ) ≤ (u2:ℚ) := by exact_mod_cast hu
    gcongr
  · unfold tickets_score
    dsimp only
    have ht' : (t1:ℚ) ≤ (t2:ℚ) := by exact_mod_cast ht
    rw [normalize_inverse_eq, normalize_inverse_eq]
    have := normalize_false_mono 0 20 t1 t2 (by norm_num) ht'
    linarith

/-- Witness for C8: ten seats, users 1 ≤ 2 (ratio 0.2 < 1.2), tickets
0 ≤ 3. -/
theorem adoption_tickets_monotonic_witness :
    adoption_ratio_score { accS with active_users := 1 } ≤
      adoption_ratio_score { accS with active_users := 2 } ∧
    tickets_score { accS with tickets_last_30d := 3 } ≤
      tickets_score { accS with tickets_last_30d := 0 } :=
  adoption_tickets_monotonic accS 1 2 0 3 (by norm_num) (by norm_num)
    (by norm_num [adoption_ratio, accS, accA, min_def])


/-- C6: the factor list returned by the scorer is sorted by descending
absolute impact and holds at most the top ten factors. -/
theorem top_factors_sorted_le_ten (today : ℤ) (a : Account) :
    List.Sorted impactGE (calculate_health_score today a).2.1 ∧
    (calculate_health_score today a).2.1.length ≤ 10 := by
  dsimp only [calculate_health_score]
  unfold top_factors
  constructor
  · exact List.Pairwise.sublist (List.take_sublist 10 _)
      (List.sorted_insertionSort impactGE (factors today a))
  · rw [List.length_take]
    exact min_le_left _ _

/-- C7: the commercial adjustment is the independent sum of the
expansion bonus `min(10, expansion/arr x 20)` (applied exactly when both
`expansion_oppty_dollar` and `arr` are positive) and the flat −5 renewal
penalty (applied exactly when the renewal date is within the next 60
days inclusive and the capped adoption ratio is below 0.5); the
expansion factor is emitted, with positive impact, exactly when the
bonus is at least 5, and the renewal factor exactly when the penalty
applies. -/
theorem commercial_adjustment_terms (today : ℤ) (a : Account) :
    commercial_bonus today a =
      (if 0 < a.expansion_oppty_dollar ∧ 0 < a.arr then
        min 10 (a.expansion_oppty_dollar / a.arr * 20) else 0) +
      (match a.renewal_date with
       | some r =>
         if 0 ≤ r - today ∧ r - today ≤ 60 ∧ adoption_ratio a < 1/2 then
           (-5 : ℚ) else 0
       | none => 0) ∧
    (factors today a).countP
        (fun f => f.factor == "Strong expansion opportunity") =
      (if 0 < a.expansion_oppty_dollar ∧ 0 < a.arr ∧
          5 ≤ min 10 (a.expansion_oppty_dollar / a.arr * 20) then 1 else 0) ∧
    ((expansionFactors a).all fun f => decide (0 < f.impact)) = true ∧
    (factors today a).countP
        (fun f => f.factor == "Renewal risk: low adoption") =
      (match a.renewal_date with
       | some r =>
         if 0 ≤ r - today ∧ r - today ≤ 60 ∧ adoption_ratio a < 1/2 then
           1 else 0
       | none => 0) := by
  refine ⟨?_, ?_, ?_, ?_⟩
  · cases hrd : a.renewal_date <;>
      simp [commercial_bonus, expansion_bonus, renewal_penalty, hrd]
  · have z1 := countP_factor_zero
      (fun s => s == "Strong expansion opportunity") _ _
      (mem_adoptionFactors a) (by decide)
    have z2 := countP_factor_zero
      (fun s => s == "Strong expansion opportunity") _ _
      (mem_featureFactors a) (by decide)
    have z3 := countP_factor_zero
      (fun s => s == "Strong expansion opportunity") _ _
      (mem_weeklyFactors a) (by decide)
    have z4 := countP_factor_zero
      (fun s => s == "Strong expansion opportunity") _ _
      (mem_ttvFactors a) (by decide)
    have z5 := countP_factor_zero
      (fun s => s == "Strong expansion opportunity") _ _
      (mem_ticketFactors a) (by decide)
    have z6 := countP_factor_zero
      (fun s => s == "Strong expansion opportunity") _ _
      (mem_criticalFactors a) (by decide)
    have z7 := countP_factor_zero
      (fun s => s == "Strong expansion opportunity") _ _
      (mem_slaFactors a) (by decide)
    have z8 := countP_factor_zero
      (fun s => s == "Strong expansion opportunity") _ _
      (mem_npsFactors a) (by decide)
    have z9 := countP_factor_zero
      (fun s => s == "Strong expansion opportunity") _ _
      (mem_qbrFactors today a) (by decide)
    have z10 := countP_factor_zero
      (fun s => s == "Strong expansion opportunity") _ _
      (mem_onboardingFactors today a) (by decide)
    have z12 := countP_factor_zero
      (fun s => s == "Strong expansion opportunity") _ _
      (mem_renewalFactors today a) (by decide)
    have hx : (expansionFactors a).countP
        (fun f => f.factor == "Strong expansion opportunity") =
        (if 0 < a.expansion_oppty_dollar ∧ 0 < a.arr ∧
            5 ≤ min 10 (a.expansion_oppty_dollar / a.arr * 20) then
          1 else 0) := by
      unfold expansionFactors
      split_ifs with h1 h2 h3 <;>
        simp_all [mkFactor, List.countP_cons]
    simp only [factors, List.countP_append, z1, z2, z3, z4, z5, z6, z7, z8,
      z9, z10, z12, hx]
    omega
  · unfold expansionFactors
    split_ifs with h1 h2
    · simp only [List.all_cons, List.all_nil, Bool.and_true,
        decide_eq_true_eq, mkFactor]
      exact round1_pos_of_five_le _ h2
    · rfl
    · rfl
  · have z1 := countP_factor_zero
      (fun s => s == "Renewal risk: low adoption") _ _
      (mem_adoptionFactors a) (by decide)
    have z2 := countP_factor_zero
      (fun s => s == "Renewal risk: low adoption") _ _
      (mem_featureFactors a) (by decide)
    have z3 := countP_factor_zero
      (fun s => s == "Renewal risk: low adoption") _ _
      (mem_weeklyFactors a) (by decide)
    have z4 := countP_factor_zero
      (fun s => s == "Renewal risk: low adoption") _ _
      (mem_ttvFactors a) (by decide)
    have z5 := countP_factor_zero
      (fun s => s == "Renewal risk: low adoption") _ _
      (mem_ticketFactors a) (by decide)
    have z6 := countP_factor_zero
      (fun s => s == "Renewal risk: low adoption") _ _
      (mem_criticalFactors a) (by decide)
    have z7 := countP_factor_zero
      (fun s => s == "Renewal risk: low adoption") _ _
      (mem_slaFactors a) (by decide)
    have z8 := countP_factor_zero
      (fun s => s == "Renewal risk: low adoption") _ _
      (mem_npsFactors a) (by decide)
    have z9 := countP_factor_zero
      (fun s => s == "Renewal risk: low adoption") _ _
      (mem_qbrFactors today a) (by decide)
    have z10 := countP_factor_zero
      (fun s => s == "Renewal risk: low adoption") _ _
      (mem_onboardingFactors today a) (by decide)
    have z11 := countP_factor_zero
      (fun s => s == "Renewal risk: low adoption") _ _
      (mem_expansionFactors a) (by decide)
    have hren : (renewalFactors today a).countP
        (fun f => f.factor == "Renewal risk: low adoption") =
        (match a.renewal_date with
         | some r =>
           if 0 ≤ r - today ∧ r - today ≤ 60 ∧ adoption_ratio a < 1/2 then
             1 else 0
         | none => 0) := by
      unfold renewalFactors
      cases hrd : a.renewal_date with
      | none => rfl
      | some r =>
        dsimp only
        split_ifs <;> simp [mkFactor, List.countP_cons]
    simp only [factors, List.countP_append, z1, z2, z3, z4, z5, z6, z7, z8,
      z9, z10, z11, hren]
    omega

/-- C9: absent optional fields never make the scorer fail and get the
documented neutral defaults — a missing NPS contributes exactly 7.5 base
points with no NPS factor, a missing time-to-value contributes exactly 5
base points with no time-to-value factor, and a missing QBR date
contributes 0 QBR points while emitting the "No QBR history" factor with
impact −5. -/
theorem missing_fields_neutral_defaults (today : ℤ) (a : Account) :
    nps_score { a with nps := none } = 15/2 ∧
    (factors today { a with nps := none }).countP
      (fun f => f.factor == "Promoter NPS" || f.factor == "Detractor NPS")
      = 0 ∧
    ttv_score { a with time_to_value_days := none } = 5 ∧
    (factors today { a with time_to_value_days := none }).countP
      (fun f => f.factor == "Fast time to value" ||
        f.factor == "Slow time to value") = 0 ∧
    qbr_score today { a with qbr_last_date := none } = 0 ∧
    mkFactor "No QBR history" (-5) ∈
      factors today { a with qbr_last_date := none } ∧
    (mkFactor "No QBR history" (-5)).impact = -5 := by
  refine ⟨rfl, ?_, rfl, ?_, rfl, ?_, ?_⟩
  · have z1 := countP_factor_zero
      (fun s => s == "Promoter NPS" || s == "Detractor NPS") _ _
      (mem_adoptionFactors { a with nps := none }) (by decide)
    have z2 := countP_factor_zero
      (fun s => s == "Promoter NPS" || s == "Detractor NPS") _ _
      (mem_featureFactors { a with nps := none }) (by decide)
    have z3 := countP_factor_zero
      (fun s => s == "Promoter NPS" || s == "Detractor NPS") _ _
      (mem_weeklyFactors { a with nps := none }) (by decide)
    have z4 := countP_factor_zero
      (fun s => s == "Promoter NPS" || s == "Detractor NPS") _ _
      (mem_ttvFactors { a with nps := none }) (by decide)
    have z5 := countP_factor_zero
      (fun s => s == "Promoter NPS" || s == "Detractor NPS") _ _
      (mem_ticketFactors { a with nps := none }) (by decide)
    have z6 := countP_factor_zero
      (fun s => s == "Promoter NPS" || s == "Detractor NPS") _ _
      (mem_criticalFactors { a with nps := none }) (by decide)
    have z7 := countP_factor_zero
      (fun s => s == "Promoter NPS" || s == "Detractor NPS") _ _
      (mem_slaFactors { a with nps := none }) (by decide)
    have z8 : (npsFactors { a with nps := none }).countP
        (fun f => f.factor == "Promoter NPS" ||
          f.factor == "Detractor NPS") = 0 := rfl
    have z9 := countP_factor_zero
      (fun s => s == "Promoter NPS" || s == "Detractor NPS") _ _
      (mem_qbrFactors today { a with nps := none }) (by decide)
    have z10 := countP_factor_zero
      (fun s => s == "Promoter NPS" || s == "Detractor NPS") _ _
      (mem_onboardingFactors today { a with nps := none }) (by decide)
    have z11 := countP_factor_zero
      (fun s => s == "Promoter NPS" || s == "Detractor NPS") _ _
      (mem_expansionFactors { a with nps := none }) (by decide)
    have z12 := countP_factor_zero
      (fun s => s == "Promoter NPS" || s == "Detractor NPS") _ _
      (mem_renewalFactors today { a with nps := none }) (by decide)
    simp only [factors, List.countP_append, z1, z2, z3, z4, z5, z6, z7, z8,
      z9, z10, z11, z12]
  · have z1 := countP_factor_zero
      (fun s => s == "Fast time to value" || s == "Slow time to value") _ _
      (mem_adoptionFactors { a with time_to_value_days := none }) (by decide)
    have z2 := countP_factor_zero
      (fun s => s == "Fast time to value" || s == "Slow time to value") _ _
      (mem_featureFactors { a with time_to_value_days := none }) (by decide)
    have z3 := countP_factor_zero
      (fun s => s == "Fast time to value" || s == "Slow time to value") _ _
      (mem_weeklyFactors { a with time_to_value_days := none }) (by decide)
    have z4 : (ttvFactors { a with time_to_value_days := none }).countP
        (fun f => f.factor == "Fast time to value" ||
          f.factor == "Slow time to value") = 0 := rfl
    have z5 := countP_factor_zero
      (fun s => s == "Fast time to value" || s == "Slow time to value") _ _
      (mem_ticketFactors { a with time_to_value_days := none }) (by decide)
    have z6 := countP_factor_zero
      (fun s => s == "Fast time to value" || s == "Slow time to value") _ _
      (mem_criticalFactors { a with time_to_value_days := none }) (by decide)
    have z7 := countP_factor_zero
      (fun s => s == "Fast time to value" || s == "Slow time to value") _ _
      (mem_slaFactors { a with time_to_value_days := none }) (by decide)
    have z8 := countP_factor_zero
      (fun s => s == "Fast time to value" || s == "Slow time to value") _ _
      (mem_npsFactors { a with time_to_value_days := none }) (by decide)
    have z9 := countP_factor_zero
      (fun s => s == "Fast time to value" || s == "Slow time to value") _ _
      (mem_qbrFactors today { a with time_to_value_days := none }) (by decide)
    have z10 := countP_factor_zero
      (fun s => s == "Fast time to value" || s == "Slow time to value") _ _
      (mem_onboardingFactors today { a with time_to_value_days := none })
      (by decide)
    have z11 := countP_factor_zero
      (fun s => s == "Fast time to value" || s == "Slow time to value") _ _
      (mem_expansionFactors { a with time_to_value_days := none }) (by decide)
    have z12 := countP_factor_zero
      (fun s => s == "Fast time to value" || s == "Slow time to value") _ _
      (mem_renewalFactors today { a with time_to_value_days := none })
      (by decide)
    simp only [factors, List.countP_append, z1, z2, z3, z4, z5, z6, z7, z8,
      z9, z10, z11, z12]
  · have hq : qbrFactors today { a with qbr_last_date := none } =
        [mkFactor "No QBR history" (-5)] := rfl
    simp [factors, hq]
  · simp only [mkFactor, round1_neg_five]

/-- C10: the factor list handed to consumers is never empty, and exactly
one of the three adoption-ratio factors is always emitted. -/
theorem factors_nonempty_unique_adoption (today : ℤ) (a : Account) :
    1 ≤ (calculate_health_score today a).2.1.length ∧
    (factors today a).countP (fun f =>
      f.factor == "Strong user adoption" || f.factor == "Low user adoption" ||
        f.factor == "Moderate user adoption") = 1 := by
  constructor
  · dsimp only [calculate_health_score]
    unfold top_factors
    rw [List.length_take, List.length_insertionSort]
    have h1 : 1 ≤ (factors today a).length := by
      unfold factors
      simp [List.length_append, adoptionFactors_length]
    omega
  · have hone : (adoptionFactors a).countP (fun f =>
        f.factor == "Strong user adoption" ||
          f.factor == "Low user adoption" ||
          f.factor == "Moderate user adoption") = 1 := by
      unfold adoptionFactors
      split_ifs <;> simp [mkFactor, List.countP_cons]
    have z2 := countP_factor_zero
      (fun s => s == "Strong user adoption" || s == "Low user adoption" ||
        s == "Moderate user adoption") _ _ (mem_featureFactors a) (by decide)
    have z3 := countP_factor_zero
      (fun s => s == "Strong user adoption" || s == "Low user adoption" ||
        s == "Moderate user adoption") _ _ (mem_weeklyFactors a) (by decide)
    have z4 := countP_factor_zero
      (fun s => s == "Strong user adoption" || s == "Low user adoption" ||
        s == "Moderate user adoption") _ _ (mem_ttvFactors a) (by decide)
    have z5 := countP_factor_zero
      (fun s => s == "Strong user adoption" || s == "Low user adoption" ||
        s == "Moderate user adoption") _ _ (mem_ticketFactors a) (by decide)
    have z6 := countP_factor_zero
      (fun s => s == "Strong user adoption" || s == "Low user adoption" ||
        s == "Moderate user adoption") _ _ (mem_criticalFactors a) (by decide)
    have z7 := countP_factor_zero
      (fun s => s == "Strong user adoption" || s == "Low user adoption" ||
        s == "Moderate user adoption") _ _ (mem_slaFactors a) (by decide)
    have z8 := countP_factor_zero
      (fun s => s == "Strong user adoption" || s == "Low user adoption" ||
        s == "Moderate user adoption") _ _ (mem_npsFactors a) (by decide)
    have z9 := countP_factor_zero
      (fun s => s == "Strong user adoption" || s == "Low user adoption" ||
        s == "Moderate user adoption") _ _ (mem_qbrFactors today a) (by decide)
    have z10 := countP_factor_zero
      (fun s => s == "Strong user adoption" || s == "Low user adoption" ||
        s == "Moderate user adoption") _ _ (mem_onboardingFactors today a)
      (by decide)
    have z11 := countP_factor_zero
      (fun s => s == "Strong user adoption" || s == "Low user adoption" ||
        s == "Moderate user adoption") _ _ (mem_expansionFactors a)
      (by decide)
    have z12 := countP_factor_zero
      (fun s => s == "Strong user adoption" || s == "Low user adoption" ||
        s == "Moderate user adoption") _ _ (mem_renewalFactors today a)
      (by decide)
    simp only [factors, List.countP_append, hone, z2, z3, z4, z5, z6, z7,
      z8, z9, z10, z11, z12]

end AISuccess
